import Mathlib

/-!
Shallow embedding of `hiomap.cpp` (openpower-host-ipmi-flash): the HIOMAP
IPMI command dispatcher, its per-command handlers, the errno → IPMI
completion-code translator, and the event-notification handlers.

The D-Bus backend (`ctx->bus->call(m)`) is modelled as an oracle value of
type `BusResult α`: either the reply values the handler would `read`, or
the errno carried by the thrown `SdBusError`.  Bytes are `Nat` with
masking (`% 256` / bitwise ops against 255) exactly where the C code's
`uint8_t` truncation matters.
-/

/- IPMI completion codes, from `host-ipmid/ipmid-api.h`. -/

def IPMI_CC_OK : Nat := 0x00

def IPMI_CC_BUSY : Nat := 0xc0

def IPMI_CC_INVALID : Nat := 0xc1

def IPMI_CC_REQ_DATA_LEN_INVALID : Nat := 0xc7

def IPMI_CC_PARM_OUT_OF_RANGE : Nat := 0xc9

def IPMI_CC_SENSOR_INVALID : Nat := 0xcb

def IPMI_CC_INVALID_FIELD_REQUEST : Nat := 0xcc

def IPMI_CC_INSUFFICIENT_PRIVILEGE : Nat := 0xd4

def IPMI_CC_UNSPECIFIED_ERROR : Nat := 0xff

/- Linux errno values used by `errno_cc_map`. -/

def EPERM : Int := 1

def EACCES : Int := 13

def EBUSY : Int := 16

def ENODEV : Int := 19

def EINVAL : Int := 22

def ENOSPC : Int := 28

def ENOTSUP : Int := 95

def ETIMEDOUT : Int := 110

/- Event bits (hiomap.cpp lines 35-38). -/

def BMC_EVENT_DAEMON_READY : Nat := 1 <<< 7

def BMC_EVENT_FLASH_CTRL_LOST : Nat := 1 <<< 6

def BMC_EVENT_WINDOW_RESET : Nat := 1 <<< 1

def BMC_EVENT_PROTOCOL_RESET : Nat := 1 <<< 0

def IPMI_CMD_HIOMAP_EVENT : Nat := 0x0f

/-- Protocol state of `struct hiomap` (the bus/match pointers are the
external plumbing and carry no protocol state). -/
structure Hiomap where
  event_lookup : List (String × Nat)
  bmc_events : Nat
  seq : Nat
deriving Repr, DecidableEq

/-- Outcome of one `ctx->bus->call(m)`: the reply the handler reads, or
the errno of the `SdBusError` it catches. -/
inductive BusResult (α : Type) where
  | ok : α → BusResult α
  | err : Int → BusResult α
deriving Repr, DecidableEq

/-- `errno_cc_map` (hiomap.cpp lines 89-100): ordered errno → completion
code table; the `-1` entry is the wildcard sentinel. -/
def errno_cc_map : List (Int × Nat) :=
  [(0, IPMI_CC_OK),
   (EBUSY, IPMI_CC_BUSY),
   (ENOTSUP, IPMI_CC_INVALID),
   (ETIMEDOUT, 0xc3),
   (ENOSPC, 0xc4),
   (EINVAL, IPMI_CC_PARM_OUT_OF_RANGE),
   (ENODEV, IPMI_CC_SENSOR_INVALID),
   (EPERM, IPMI_CC_INSUFFICIENT_PRIVILEGE),
   (EACCES, IPMI_CC_INSUFFICIENT_PRIVILEGE),
   (-1, IPMI_CC_UNSPECIFIED_ERROR)]

/-- `hiomap_xlate_errno` (lines 102-112): walk the table until an entry
matches the errno or is the `-1` wildcard; return its completion code.
`List.find?` with the same stopping predicate is the loop; the C loop has
no empty-table case (the wildcard stops it), so `none` is dead code here
and mapped to `IPMI_CC_OK = 0` arbitrarily. -/
def hiomap_xlate_errno (err : Int) : Nat :=
  match errno_cc_map.find? (fun entry => entry.1 == err || entry.1 == -1) with
  | some entry => entry.2
  | none => 0

/-- Result of one C handler invocation: the returned completion code, the
value left in `*data_len`, the bytes written to the response buffer, and
the (possibly mutated) protocol state. -/
structure HandlerResult where
  cc : Nat
  len : Nat
  resp : List Nat
  ctx : Hiomap
deriving Repr, DecidableEq

/-- Little-endian 16-bit store (`put` + `htole16`). -/
def putU16le (v : Nat) : List Nat := [v % 256, v / 256 % 256]

/-- Little-endian 16-bit load (`le16toh(get<uint16_t>(...))`). -/
def getU16le (req : List Nat) (off : Nat) : Nat :=
  req.getD off 0 + 256 * req.getD (off + 1) 0

/-- `hiomap_reset` (lines 198-217): calls `Reset` on the base interface;
no payload read, `*data_len = 0` on success. -/
def hiomap_reset (req : List Nat) (b : BusResult Unit) (ctx : Hiomap) :
    HandlerResult :=
  match b with
  | .ok _ => ⟨IPMI_CC_OK, 0, [], ctx⟩
  | .err e => ⟨hiomap_xlate_errno e, req.length, [], ctx⟩

/-- `hiomap_get_info` (lines 219-260): 1-byte version payload in; 4-byte
reply (version, blockSizeShift, le16 timeout) on success. -/
def hiomap_get_info (req : List Nat) (b : BusResult (Nat × Nat × Nat))
    (ctx : Hiomap) : HandlerResult :=
  if req.length < 1 then ⟨IPMI_CC_REQ_DATA_LEN_INVALID, req.length, [], ctx⟩
  else
    match b with
    | .ok (version, blockSizeShift, timeout) =>
        ⟨IPMI_CC_OK, 4,
         [version % 256, blockSizeShift % 256] ++ putU16le timeout, ctx⟩
    | .err e => ⟨hiomap_xlate_errno e, req.length, [], ctx⟩

/-- `hiomap_get_flash_info` (lines 262-290): no payload; 4-byte reply
(le16 flashSize, le16 eraseSize) on success. -/
def hiomap_get_flash_info (req : List Nat) (b : BusResult (Nat × Nat))
    (ctx : Hiomap) : HandlerResult :=
  match b with
  | .ok (flashSize, eraseSize) =>
      ⟨IPMI_CC_OK, 4, putU16le flashSize ++ putU16le eraseSize, ctx⟩
  | .err e => ⟨hiomap_xlate_errno e, req.length, [], ctx⟩

/-- `hiomap_create_window` (lines 292-332): 4-byte payload (le16 offset,
le16 size); 6-byte reply (le16 lpcAddress, size, offset) on success. The
`ro` flag only selects the backend method name, which lives inside the
oracle here. -/
def hiomap_create_window (req : List Nat)
    (b : BusResult (Nat × Nat × Nat)) (ctx : Hiomap) : HandlerResult :=
  if req.length < 4 then ⟨IPMI_CC_REQ_DATA_LEN_INVALID, req.length, [], ctx⟩
  else
    match b with
    | .ok (lpcAddress, size, offset) =>
        ⟨IPMI_CC_OK, 6,
         putU16le lpcAddress ++ putU16le size ++ putU16le offset, ctx⟩
    | .err e => ⟨hiomap_xlate_errno e, req.length, [], ctx⟩

/-- `hiomap_close_window` (lines 354-383): 1-byte payload; no reply
payload. -/
def hiomap_close_window (req : List Nat) (b : BusResult Unit)
    (ctx : Hiomap) : HandlerResult :=
  if req.length < 1 then ⟨IPMI_CC_REQ_DATA_LEN_INVALID, req.length, [], ctx⟩
  else
    match b with
    | .ok _ => ⟨IPMI_CC_OK, 0, [], ctx⟩
    | .err e => ⟨hiomap_xlate_errno e, req.length, [], ctx⟩

/-- `hiomap_mark_dirty` (lines 385-416): 4-byte payload (le16 offset,
le16 size); no reply payload. -/
def hiomap_mark_dirty (req : List Nat) (b : BusResult Unit)
    (ctx : Hiomap) : HandlerResult :=
  if req.length < 4 then ⟨IPMI_CC_REQ_DATA_LEN_INVALID, req.length, [], ctx⟩
  else
    match b with
    | .ok _ => ⟨IPMI_CC_OK, 0, [], ctx⟩
    | .err e => ⟨hiomap_xlate_errno e, req.length, [], ctx⟩

/-- `hiomap_flush` (lines 418-439): no payload; no reply payload. -/
def hiomap_flush (req : List Nat) (b : BusResult Unit)
    (ctx : Hiomap) : HandlerResult :=
  match b with
  | .ok _ => ⟨IPMI_CC_OK, 0, [], ctx⟩
  | .err e => ⟨hiomap_xlate_errno e, req.length, [], ctx⟩

/-- `hiomap_ack` (lines 441-473): 1-byte mask payload; on backend success
clears the acked bits from the event cache (`ctx->bmc_events &= ~acked`,
a `uint8_t` and-not) and returns OK; on failure leaves state untouched
and returns the translated errno. -/
def hiomap_ack (req : List Nat) (b : BusResult Unit)
    (ctx : Hiomap) : HandlerResult :=
  if req.length < 1 then ⟨IPMI_CC_REQ_DATA_LEN_INVALID, req.length, [], ctx⟩
  else
    let acked := req.getD 0 0
    match b with
    | .ok _ =>
        ⟨IPMI_CC_OK, 0, [],
         { ctx with bmc_events := ctx.bmc_events &&& (255 ^^^ acked) }⟩
    | .err e => ⟨hiomap_xlate_errno e, req.length, [], ctx⟩

/-- `hiomap_erase` (lines 475-504): 4-byte payload (le16 offset, le16
size); no reply payload. -/
def hiomap_erase (req : List Nat) (b : BusResult Unit)
    (ctx : Hiomap) : HandlerResult :=
  if req.length < 4 then ⟨IPMI_CC_REQ_DATA_LEN_INVALID, req.length, [], ctx⟩
  else
    match b with
    | .ok _ => ⟨IPMI_CC_OK, 0, [], ctx⟩
    | .err e => ⟨hiomap_xlate_errno e, req.length, [], ctx⟩

/-- The backend oracle for one dispatch: the outcome each handler's bus
call would have if issued.  Field order follows the command table. -/
structure Backend where
  reset : BusResult Unit
  getInfo : BusResult (Nat × Nat × Nat)
  getFlashInfo : BusResult (Nat × Nat)
  createReadWindow : BusResult (Nat × Nat × Nat)
  closeWindow : BusResult Unit
  createWriteWindow : BusResult (Nat × Nat × Nat)
  markDirty : BusResult Unit
  flush : BusResult Unit
  ack : BusResult Unit
  erase : BusResult Unit
deriving Repr, DecidableEq

def HIOMAP_C_RESET : Nat := 1

def HIOMAP_C_GET_INFO : Nat := 2

def HIOMAP_C_GET_FLASH_INFO : Nat := 3

def HIOMAP_C_CREATE_READ_WINDOW : Nat := 4

def HIOMAP_C_CLOSE_WINDOW : Nat := 5

def HIOMAP_C_CREATE_WRITE_WINDOW : Nat := 6

def HIOMAP_C_MARK_DIRTY : Nat := 7

def HIOMAP_C_FLUSH : Nat := 8

def HIOMAP_C_ACK : Nat := 9

def HIOMAP_C_ERASE : Nat := 10

/-- Number of slots in `hiomap_commands` (`ARRAY_SIZE`): slot 0 plus the
ten commands. -/
def hiomap_commands_size : Nat := 11

/-- `hiomap_commands` (lines 517-529) applied at index `cmd`: invoke the
handler in that slot.  Slot 0 is `NULL` in the C table and any other
index is out of bounds; both are unreachable because `hiomap_dispatch`
bounds-checks first, and are mapped to an inert result here. -/
def hiomap_commands (cmd : Nat) (req : List Nat) (b : Backend)
    (ctx : Hiomap) : HandlerResult :=
  match cmd with
  | 1 => hiomap_reset req b.reset ctx
  | 2 => hiomap_get_info req b.getInfo ctx
  | 3 => hiomap_get_flash_info req b.getFlashInfo ctx
  | 4 => hiomap_create_window req b.createReadWindow ctx
  | 5 => hiomap_close_window req b.closeWindow ctx
  | 6 => hiomap_create_window req b.createWriteWindow ctx
  | 7 => hiomap_mark_dirty req b.markDirty ctx
  | 8 => hiomap_flush req b.flush ctx
  | 9 => hiomap_ack req b.ack ctx
  | 10 => hiomap_erase req b.erase ctx
  | _ => ⟨IPMI_CC_OK, req.length, [], ctx⟩

/-- `hiomap_dispatch` (lines 535-589) on an inbound envelope `req` (the
raw request bytes, whose length is the inbound `*data_len`): frame check,
command-id bounds check, duplicate-sequence check for versioned commands,
sequence commit, handler invocation on the payload slice, and response
framing `[cmd, seq] ++ payload` on success. -/
def hiomap_dispatch (req : List Nat) (b : Backend) (ctx : Hiomap) :
    HandlerResult :=
  if req.length < 2 then ⟨IPMI_CC_REQ_DATA_LEN_INVALID, 0, [], ctx⟩
  else
    let hiomap_cmd := req.getD 0 0
    if hiomap_cmd = 0 ∨ hiomap_cmd > hiomap_commands_size - 1 then
      ⟨IPMI_CC_PARM_OUT_OF_RANGE, 0, [], ctx⟩
    else
      let is_unversioned := hiomap_cmd = HIOMAP_C_RESET ∨
        hiomap_cmd = HIOMAP_C_GET_INFO ∨ hiomap_cmd = HIOMAP_C_ACK
      if ¬is_unversioned ∧ ctx.seq = req.getD 1 0 then
        ⟨IPMI_CC_INVALID_FIELD_REQUEST, 0, [], ctx⟩
      else
        let ctx' := { ctx with seq := req.getD 1 0 }
        let r := hiomap_commands hiomap_cmd (req.drop 2) b ctx'
        if r.cc ≠ IPMI_CC_OK then ⟨r.cc, 0, [], r.ctx⟩
        else
          ⟨r.cc, r.len + 2, hiomap_cmd :: r.ctx.seq :: r.resp, r.ctx⟩

/-- Lookup counterpart of `ctx->event_lookup.count(name)`. -/
def event_lookup_count (lookup : List (String × Nat)) (name : String) : Bool :=
  (lookup.find? (fun p => p.1 == name)).isSome

/-- Lookup counterpart of `ctx->event_lookup[name]` (`std::map`
`operator[]`; the names used by the handlers are present in the map, and
a missing name yields the value-initialised `0`). -/
def event_lookup_get (lookup : List (String × Nat)) (name : String) : Nat :=
  match lookup.find? (fun p => p.1 == name) with
  | some p => p.2
  | none => 0

/-- The fixed name → bit map built in
`register_openpower_hiomap_commands` (lines 601-604). -/
def standard_event_lookup : List (String × Nat) :=
  [("DaemonReady", BMC_EVENT_DAEMON_READY),
   ("FlashControlLost", BMC_EVENT_FLASH_CTRL_LOST),
   ("WindowReset", BMC_EVENT_WINDOW_RESET),
   ("ProtocolReset", BMC_EVENT_PROTOCOL_RESET)]

/-- Result of a notification handler: the mutated state and the
`(command, data)` pairs pushed upstream via `ipmid_send_cmd_to_host`. -/
structure NotifyResult where
  ctx : Hiomap
  pushes : List (Nat × Nat)
deriving Repr, DecidableEq

/-- The `for (auto const& x : msgData)` loop body of
`hiomap_handle_property_update` (lines 133-152), folded over the
delivered name/boolean pairs. -/
def property_update_fold (lookup : List (String × Nat)) (events : Nat) :
    List (String × Bool) → Nat
  | [] => events
  | (name, value) :: rest =>
    if event_lookup_count lookup name then
      let mask := event_lookup_get lookup name
      if value then property_update_fold lookup (events ||| mask) rest
      else property_update_fold lookup (events &&& (255 ^^^ mask)) rest
    else property_update_fold lookup events rest

/-- `hiomap_handle_property_update` (lines 125-159): fold the delivered
name/boolean map into `bmc_events`, then push one
`(IPMI_CMD_HIOMAP_EVENT, bmc_events)` command upstream. -/
def hiomap_handle_property_update (msgData : List (String × Bool))
    (ctx : Hiomap) : NotifyResult :=
  let events := property_update_fold ctx.event_lookup ctx.bmc_events msgData
  { ctx := { ctx with bmc_events := events },
    pushes := [(IPMI_CMD_HIOMAP_EVENT, events)] }

/-- `hiomap_handle_signal_v2` (lines 173-182): OR the named event's bit
into `bmc_events`, then push one `(IPMI_CMD_HIOMAP_EVENT, bmc_events)`
command upstream. -/
def hiomap_handle_signal_v2 (name : String) (ctx : Hiomap) : NotifyResult :=
  let events := ctx.bmc_events ||| event_lookup_get ctx.event_lookup name
  { ctx := { ctx with bmc_events := events },
    pushes := [(IPMI_CMD_HIOMAP_EVENT, events)] }

/-- A thrown `SdBusError` carries a nonzero errno (`sd_bus_error_get_errno`
on a set error); `ok` results are unconstrained. -/
def BusResult.wf {α : Type} : BusResult α → Prop
  | .ok _ => True
  | .err e => e ≠ 0

/-- All ten oracle outcomes are well-formed bus-call outcomes. -/
def Backend.wf (b : Backend) : Prop :=
  b.reset.wf ∧ b.getInfo.wf ∧ b.getFlashInfo.wf ∧ b.createReadWindow.wf ∧
  b.closeWindow.wf ∧ b.createWriteWindow.wf ∧ b.markDirty.wf ∧
  b.flush.wf ∧ b.ack.wf ∧ b.erase.wf

/-- Sample protocol state used to instantiate theorems at concrete
inputs: events `0b0100_0010`, last-seen sequence `7`. -/
def ctxW : Hiomap := ⟨standard_event_lookup, 66, 7⟩

/-- Sample all-successful backend used to instantiate theorems at
concrete inputs. -/
def bW : Backend :=
  ⟨.ok (), .ok (2, 1, 3), .ok (32, 64), .ok (253, 2, 3), .ok (),
   .ok (252, 4, 5), .ok (), .ok (), .ok (), .ok ()⟩

lemma errno_cc_map_find_isSome (e : Int) :
    (errno_cc_map.find? (fun entry => entry.1 == e || entry.1 == -1)).isSome := by
  rw [List.find?_isSome]
  exact ⟨(-1, IPMI_CC_UNSPECIFIED_ERROR), by simp [errno_cc_map], by simp⟩

lemma hiomap_xlate_errno_mem (e : Int) :
    ∃ p ∈ errno_cc_map, hiomap_xlate_errno e = p.2 := by
  have h := errno_cc_map_find_isSome e
  unfold hiomap_xlate_errno
  obtain ⟨p, hp⟩ := Option.isSome_iff_exists.mp h
  rw [hp]
  exact ⟨p, List.mem_of_find?_eq_some hp, rfl⟩

lemma hiomap_xlate_errno_ne_invalid_field (e : Int) :
    hiomap_xlate_errno e ≠ IPMI_CC_INVALID_FIELD_REQUEST := by
  obtain ⟨p, hmem, heq⟩ := hiomap_xlate_errno_mem e
  rw [heq]
  fin_cases hmem <;> decide

/-- C7: the errno translator is total: for every failure code the linear
first-match lookup over `errno_cc_map` finds an entry and returns its
status, and any input matching no non-wildcard entry maps to the generic
"unspecified error" status via the final wildcard entry. -/
theorem C7_translator_total_first_match (e : Int) :
    (∃ p, errno_cc_map.find? (fun entry => entry.1 == e || entry.1 == -1) = some p ∧
       hiomap_xlate_errno e = p.2) ∧
    ((∀ p ∈ errno_cc_map, p.1 ≠ -1 → p.1 ≠ e) →
       hiomap_xlate_errno e = IPMI_CC_UNSPECIFIED_ERROR) := by
  constructor
  · have h := errno_cc_map_find_isSome e
    obtain ⟨p, hp⟩ := Option.isSome_iff_exists.mp h
    exact ⟨p, hp, by unfold hiomap_xlate_errno; rw [hp]⟩
  · intro h
    have h0 : (0 : Int) ≠ e := h (0, IPMI_CC_OK) (by simp [errno_cc_map]) (by decide)
    have h1 : EBUSY ≠ e := h (EBUSY, IPMI_CC_BUSY) (by simp [errno_cc_map]) (by decide)
    have h2 : ENOTSUP ≠ e := h (ENOTSUP, IPMI_CC_INVALID) (by simp [errno_cc_map]) (by decide)
    have h3 : ETIMEDOUT ≠ e := h (ETIMEDOUT, 0xc3) (by simp [errno_cc_map]) (by decide)
    have h4 : ENOSPC ≠ e := h (ENOSPC, 0xc4) (by simp [errno_cc_map]) (by decide)
    have h5 : EINVAL ≠ e := h (EINVAL, IPMI_CC_PARM_OUT_OF_RANGE) (by simp [errno_cc_map]) (by decide)
    have h6 : ENODEV ≠ e := h (ENODEV, IPMI_CC_SENSOR_INVALID) (by simp [errno_cc_map]) (by decide)
    have h7 : EPERM ≠ e := h (EPERM, IPMI_CC_INSUFFICIENT_PRIVILEGE) (by simp [errno_cc_map]) (by decide)
    have h8 : EACCES ≠ e := h (EACCES, IPMI_CC_INSUFFICIENT_PRIVILEGE) (by simp [errno_cc_map]) (by decide)
    have b0 := beq_eq_false_iff_ne.mpr h0
    have b1 := beq_eq_false_iff_ne.mpr h1
    have b2 := beq_eq_false_iff_ne.mpr h2
    have b3 := beq_eq_false_iff_ne.mpr h3
    have b4 := beq_eq_false_iff_ne.mpr h4
    have b5 := beq_eq_false_iff_ne.mpr h5
    have b6 := beq_eq_false_iff_ne.mpr h6
    have b7 := beq_eq_false_iff_ne.mpr h7
    have b8 := beq_eq_false_iff_ne.mpr h8
    unfold hiomap_xlate_errno errno_cc_map
    simp [List.find?, b0, b1, b2, b3, b4, b5, b6, b7, b8]
    simp [EBUSY, ENOTSUP, ETIMEDOUT, ENOSPC, EINVAL, ENODEV, EPERM, EACCES]

lemma testBit_255 (i : Nat) : Nat.testBit 255 i = decide (i < 8) := by
  rw [show (255 : Nat) = 2 ^ 8 - 1 from rfl, Nat.testBit_two_pow_sub_one]

/-- C3: for an acknowledge request with mask byte m, a successful backend
Ack clears exactly the bits of m from the session's event bitmask (bit i
of the new mask is bit i of the old one and-not bit i of m), while a
failed backend Ack leaves the session state unchanged and returns the
translated errno status. -/
theorem C3_ack_clears_mask_or_leaves_untouched (req : List Nat) (e : Int)
    (ctx : Hiomap) (hlen : 1 ≤ req.length) (hev : ctx.bmc_events < 256) :
    ((hiomap_ack req (.ok ()) ctx).cc = IPMI_CC_OK ∧
     ∀ i, ((hiomap_ack req (.ok ()) ctx).ctx.bmc_events).testBit i =
       (ctx.bmc_events.testBit i && !((req.getD 0 0).testBit i))) ∧
    ((hiomap_ack req (.err e) ctx).ctx = ctx ∧
     (hiomap_ack req (.err e) ctx).cc = hiomap_xlate_errno e) := by
  have hn : ¬ req.length < 1 := by omega
  refine ⟨⟨by simp [hiomap_ack, hn], ?_⟩, by simp [hiomap_ack, hn], by simp [hiomap_ack, hn]⟩
  intro i
  simp only [hiomap_ack, hn, if_false]
  by_cases hi : i < 8
  · simp [Nat.testBit_and, Nat.testBit_xor, testBit_255, hi]
  · have h2i : (256 : Nat) ≤ 2 ^ i := by
      calc (256 : Nat) = 2 ^ 8 := rfl
        _ ≤ 2 ^ i := Nat.pow_le_pow_right (by norm_num) (by omega)
    have ho : ctx.bmc_events.testBit i = false :=
      Nat.testBit_lt_two_pow (lt_of_lt_of_le hev h2i)
    simp [Nat.testBit_and, ho]

/-- C10: the acknowledge mask is applied raw: on backend success the new
event bitmask is literally old AND NOT m, so the unassigned bits 2..5 are
also cleared whenever set in m, and the handler touches no session state
other than the event bitmask (sequence and lookup table unchanged, empty
reply). -/
theorem C10_ack_raw_mask (req : List Nat) (ctx : Hiomap)
    (hlen : 1 ≤ req.length) :
    (hiomap_ack req (.ok ()) ctx).ctx.bmc_events =
      ctx.bmc_events &&& (255 ^^^ req.getD 0 0) ∧
    (∀ i, 2 ≤ i → i ≤ 5 → (req.getD 0 0).testBit i = true →
      ((hiomap_ack req (.ok ()) ctx).ctx.bmc_events).testBit i = false) ∧
    (hiomap_ack req (.ok ()) ctx).ctx.seq = ctx.seq ∧
    (hiomap_ack req (.ok ()) ctx).ctx.event_lookup = ctx.event_lookup ∧
    (hiomap_ack req (.ok ()) ctx).len = 0 ∧
    (hiomap_ack req (.ok ()) ctx).resp = [] := by
  have hn : ¬ req.length < 1 := by omega
  refine ⟨by simp [hiomap_ack, hn], ?_, by simp [hiomap_ack, hn],
    by simp [hiomap_ack, hn], by simp [hiomap_ack, hn], by simp [hiomap_ack, hn]⟩
  intro i h2 h5 hbit
  simp only [hiomap_ack, hn, if_false]
  rw [Nat.testBit_and]
  have hx : (255 ^^^ req.getD 0 0).testBit i = false := by
    rw [Nat.testBit_xor, testBit_255, hbit]
    simp [show i < 8 by omega]
  rw [hx]
  simp

/-- C9: handling a signal-style notification only ORs the named event's
bit into the bitmask — every bit set before the signal is still set after
it — and the bare signal "WindowReset" always sets bit 1. -/
theorem C9_signal_only_sets (name : String) (ctx : Hiomap) :
    (hiomap_handle_signal_v2 name ctx).ctx.bmc_events =
      ctx.bmc_events ||| event_lookup_get ctx.event_lookup name ∧
    (∀ i, ctx.bmc_events.testBit i = true →
      ((hiomap_handle_signal_v2 name ctx).ctx.bmc_events).testBit i = true) ∧
    (ctx.event_lookup = standard_event_lookup → name = "WindowReset" →
      ((hiomap_handle_signal_v2 name ctx).ctx.bmc_events).testBit 1 = true) := by
  refine ⟨rfl, ?_, ?_⟩
  · intro i h
    simp [hiomap_handle_signal_v2, Nat.testBit_or, h]
  · intro hl hn2
    have hg : event_lookup_get ctx.event_lookup "WindowReset" = 2 := by
      rw [hl]; decide
    rw [hn2]
    simp [hiomap_handle_signal_v2, hg, Nat.testBit_or,
      show Nat.testBit 2 1 = true from by decide]

lemma hiomap_xlate_errno_ne_ok (e : Int) (he : e ≠ 0) :
    hiomap_xlate_errno e ≠ IPMI_CC_OK := by
  intro hOK
  unfold hiomap_xlate_errno at hOK
  cases hfind : errno_cc_map.find? (fun entry => entry.1 == e || entry.1 == -1) with
  | none =>
    have := errno_cc_map_find_isSome e
    simp [hfind] at this
  | some p =>
    rw [hfind] at hOK
    have hmem := List.mem_of_find?_eq_some hfind
    have hpred := List.find?_some hfind
    fin_cases hmem <;> simp_all [errno_cc_map, EBUSY, ENOTSUP, ETIMEDOUT,
      ENOSPC, EINVAL, ENODEV, EPERM, EACCES, IPMI_CC_OK, IPMI_CC_BUSY,
      IPMI_CC_INVALID, IPMI_CC_PARM_OUT_OF_RANGE, IPMI_CC_SENSOR_INVALID,
      IPMI_CC_INSUFFICIENT_PRIVILEGE, IPMI_CC_UNSPECIFIED_ERROR]

lemma cc_ok_ne_invalid_field : IPMI_CC_OK ≠ IPMI_CC_INVALID_FIELD_REQUEST := by decide

lemma cc_len_ne_invalid_field :
    IPMI_CC_REQ_DATA_LEN_INVALID ≠ IPMI_CC_INVALID_FIELD_REQUEST := by decide

lemma hiomap_reset_frame (req : List Nat) (b : BusResult Unit) (ctx : Hiomap) :
    (hiomap_reset req b ctx).ctx = ctx ∧
    (hiomap_reset req b ctx).cc ≠ IPMI_CC_INVALID_FIELD_REQUEST := by
  cases b with
  | ok u => exact ⟨rfl, cc_ok_ne_invalid_field⟩
  | err e => exact ⟨rfl, hiomap_xlate_errno_ne_invalid_field e⟩

lemma hiomap_get_info_frame (req : List Nat) (b : BusResult (Nat × Nat × Nat))
    (ctx : Hiomap) :
    (hiomap_get_info req b ctx).ctx = ctx ∧
    (hiomap_get_info req b ctx).cc ≠ IPMI_CC_INVALID_FIELD_REQUEST := by
  unfold hiomap_get_info
  split
  · exact ⟨rfl, cc_len_ne_invalid_field⟩
  · cases b with
    | ok v => obtain ⟨x, y, z⟩ := v; exact ⟨rfl, cc_ok_ne_invalid_field⟩
    | err e => exact ⟨rfl, hiomap_xlate_errno_ne_invalid_field e⟩

lemma hiomap_get_flash_info_frame (req : List Nat) (b : BusResult (Nat × Nat))
    (ctx : Hiomap) :
    (hiomap_get_flash_info req b ctx).ctx = ctx ∧
    (hiomap_get_flash_info req b ctx).cc ≠ IPMI_CC_INVALID_FIELD_REQUEST := by
  cases b with
  | ok v => obtain ⟨x, y⟩ := v; exact ⟨rfl, cc_ok_ne_invalid_field⟩
  | err e => exact ⟨rfl, hiomap_xlate_errno_ne_invalid_field e⟩

lemma hiomap_create_window_frame (req : List Nat)
    (b : BusResult (Nat × Nat × Nat)) (ctx : Hiomap) :
    (hiomap_create_window req b ctx).ctx = ctx ∧
    (hiomap_create_window req b ctx).cc ≠ IPMI_CC_INVALID_FIELD_REQUEST := by
  unfold hiomap_create_window
  split
  · exact ⟨rfl, cc_len_ne_invalid_field⟩
  · cases b with
    | ok v => obtain ⟨x, y, z⟩ := v; exact ⟨rfl, cc_ok_ne_invalid_field⟩
    | err e => exact ⟨rfl, hiomap_xlate_errno_ne_invalid_field e⟩

lemma hiomap_close_window_frame (req : List Nat) (b : BusResult Unit)
    (ctx : Hiomap) :
    (hiomap_close_window req b ctx).ctx = ctx ∧
    (hiomap_close_window req b ctx).cc ≠ IPMI_CC_INVALID_FIELD_REQUEST := by
  unfold hiomap_close_window
  split
  · exact ⟨rfl, cc_len_ne_invalid_field⟩
  · cases b with
    | ok u => exact ⟨rfl, cc_ok_ne_invalid_field⟩
    | err e => exact ⟨rfl, hiomap_xlate_errno_ne_invalid_field e⟩

lemma hiomap_mark_dirty_frame (req : List Nat) (b : BusResult Unit)
    (ctx : Hiomap) :
    (hiomap_mark_dirty req b ctx).ctx = ctx ∧
    (hiomap_mark_dirty req b ctx).cc ≠ IPMI_CC_INVALID_FIELD_REQUEST := by
  unfold hiomap_mark_dirty
  split
  · exact ⟨rfl, cc_len_ne_invalid_field⟩
  · cases b with
    | ok u => exact ⟨rfl, cc_ok_ne_invalid_field⟩
    | err e => exact ⟨rfl, hiomap_xlate_errno_ne_invalid_field e⟩

lemma hiomap_flush_frame (req : List Nat) (b : BusResult Unit) (ctx : Hiomap) :
    (hiomap_flush req b ctx).ctx = ctx ∧
    (hiomap_flush req b ctx).cc ≠ IPMI_CC_INVALID_FIELD_REQUEST := by
  cases b with
  | ok u => exact ⟨rfl, cc_ok_ne_invalid_field⟩
  | err e => exact ⟨rfl, hiomap_xlate_errno_ne_invalid_field e⟩

lemma hiomap_ack_frame (req : List Nat) (b : BusResult Unit) (ctx : Hiomap) :
    (hiomap_ack req b ctx).ctx.seq = ctx.seq ∧
    (hiomap_ack req b ctx).cc ≠ IPMI_CC_INVALID_FIELD_REQUEST := by
  unfold hiomap_ack
  split
  · exact ⟨rfl, cc_len_ne_invalid_field⟩
  · cases b with
    | ok u => exact ⟨rfl, cc_ok_ne_invalid_field⟩
    | err e => exact ⟨rfl, hiomap_xlate_errno_ne_invalid_field e⟩

lemma hiomap_erase_frame (req : List Nat) (b : BusResult Unit) (ctx : Hiomap) :
    (hiomap_erase req b ctx).ctx = ctx ∧
    (hiomap_erase req b ctx).cc ≠ IPMI_CC_INVALID_FIELD_REQUEST := by
  unfold hiomap_erase
  split
  · exact ⟨rfl, cc_len_ne_invalid_field⟩
  · cases b with
    | ok u => exact ⟨rfl, cc_ok_ne_invalid_field⟩
    | err e => exact ⟨rfl, hiomap_xlate_errno_ne_invalid_field e⟩

lemma hiomap_commands_frame (cmd : Nat) (req : List Nat) (b : Backend)
    (ctx : Hiomap) :
    (hiomap_commands cmd req b ctx).ctx.seq = ctx.seq ∧
    (hiomap_commands cmd req b ctx).cc ≠ IPMI_CC_INVALID_FIELD_REQUEST := by
  rcases cmd with _ | _ | _ | _ | _ | _ | _ | _ | _ | _ | _ | n
  · exact ⟨rfl, cc_ok_ne_invalid_field⟩
  · exact ⟨congrArg Hiomap.seq (hiomap_reset_frame req b.reset ctx).1,
      (hiomap_reset_frame req b.reset ctx).2⟩
  · exact ⟨congrArg Hiomap.seq (hiomap_get_info_frame req b.getInfo ctx).1,
      (hiomap_get_info_frame req b.getInfo ctx).2⟩
  · exact ⟨congrArg Hiomap.seq (hiomap_get_flash_info_frame req b.getFlashInfo ctx).1,
      (hiomap_get_flash_info_frame req b.getFlashInfo ctx).2⟩
  · exact ⟨congrArg Hiomap.seq (hiomap_create_window_frame req b.createReadWindow ctx).1,
      (hiomap_create_window_frame req b.createReadWindow ctx).2⟩
  · exact ⟨congrArg Hiomap.seq (hiomap_close_window_frame req b.closeWindow ctx).1,
      (hiomap_close_window_frame req b.closeWindow ctx).2⟩
  · exact ⟨congrArg Hiomap.seq (hiomap_create_window_frame req b.createWriteWindow ctx).1,
      (hiomap_create_window_frame req b.createWriteWindow ctx).2⟩
  · exact ⟨congrArg Hiomap.seq (hiomap_mark_dirty_frame req b.markDirty ctx).1,
      (hiomap_mark_dirty_frame req b.markDirty ctx).2⟩
  · exact ⟨congrArg Hiomap.seq (hiomap_flush_frame req b.flush ctx).1,
      (hiomap_flush_frame req b.flush ctx).2⟩
  · exact hiomap_ack_frame req b.ack ctx
  · exact ⟨congrArg Hiomap.seq (hiomap_erase_frame req b.erase ctx).1,
      (hiomap_erase_frame req b.erase ctx).2⟩
  · exact ⟨rfl, cc_ok_ne_invalid_field⟩

/-- C1: for every inbound envelope with a valid command id (1..10) that is
not one of the unversioned commands (Reset=1, Get-Info=2, Acknowledge=9),
if the envelope's sequence byte equals the session's last-seen sequence,
`hiomap_dispatch` returns "invalid field in request" with response length
zero and leaves the stored last-seen sequence (indeed the whole session
state) unchanged. -/
theorem C1_versioned_duplicate_seq_rejected (req : List Nat) (b : Backend)
    (ctx : Hiomap) (hlen : 2 ≤ req.length)
    (hlo : 1 ≤ req.getD 0 0) (hhi : req.getD 0 0 ≤ 10)
    (hr : req.getD 0 0 ≠ 1) (hg : req.getD 0 0 ≠ 2) (ha : req.getD 0 0 ≠ 9)
    (hseq : req.getD 1 0 = ctx.seq) :
    hiomap_dispatch req b ctx =
      ⟨IPMI_CC_INVALID_FIELD_REQUEST, 0, [], ctx⟩ := by
  unfold hiomap_dispatch
  rw [if_neg (by omega)]
  rw [if_neg (by unfold hiomap_commands_size; omega)]
  rw [if_pos ⟨by tauto, hseq.symm⟩]

/-- C5: for the unversioned commands (Reset=1, Get-Info=2, Acknowledge=9)
the dispatcher never returns the "invalid field in request" status,
regardless of the session's last-seen sequence, the payload, or the
backend's behaviour. -/
theorem C5_unversioned_never_invalid_field (req : List Nat) (b : Backend)
    (ctx : Hiomap)
    (hcmd : req.getD 0 0 = 1 ∨ req.getD 0 0 = 2 ∨ req.getD 0 0 = 9) :
    (hiomap_dispatch req b ctx).cc ≠ IPMI_CC_INVALID_FIELD_REQUEST := by
  unfold hiomap_dispatch
  by_cases h1 : req.length < 2
  · rw [if_pos h1]; exact cc_len_ne_invalid_field
  · rw [if_neg h1]
    rw [if_neg (by unfold hiomap_commands_size; omega)]
    rw [if_neg (by tauto)]
    by_cases h4 : (hiomap_commands (req.getD 0 0) (req.drop 2) b
        { ctx with seq := req.getD 1 0 }).cc ≠ IPMI_CC_OK
    · rw [if_pos h4]
      exact (hiomap_commands_frame (req.getD 0 0) (req.drop 2) b _).2
    · rw [if_neg h4]
      push_neg at h4
      exact h4 ▸ cc_ok_ne_invalid_field

/-- C2: for every envelope that passes the frame, bounds, and sequence
checks, the incoming sequence byte is stored as the session's last-seen
sequence before the handler runs, so even when the handler fails the
stored sequence equals the request's sequence byte. -/
theorem C2_sequence_committed_before_handler (req : List Nat) (b : Backend)
    (ctx : Hiomap) (hlen : 2 ≤ req.length)
    (hlo : 1 ≤ req.getD 0 0) (hhi : req.getD 0 0 ≤ 10)
    (hpass : req.getD 0 0 = 1 ∨ req.getD 0 0 = 2 ∨ req.getD 0 0 = 9 ∨
      req.getD 1 0 ≠ ctx.seq) :
    (hiomap_dispatch req b ctx).ctx.seq = req.getD 1 0 := by
  unfold hiomap_dispatch
  rw [if_neg (by omega)]
  rw [if_neg (by unfold hiomap_commands_size; omega)]
  rw [if_neg (by tauto)]
  by_cases h4 : (hiomap_commands (req.getD 0 0) (req.drop 2) b
      { ctx with seq := req.getD 1 0 }).cc ≠ IPMI_CC_OK
  · rw [if_pos h4]
    exact (hiomap_commands_frame (req.getD 0 0) (req.drop 2) b _).1
  · rw [if_neg h4]
    exact (hiomap_commands_frame (req.getD 0 0) (req.drop 2) b _).1

lemma cc_len_ne_ok : IPMI_CC_REQ_DATA_LEN_INVALID ≠ IPMI_CC_OK := by decide

lemma cc_parm_ne_ok : IPMI_CC_PARM_OUT_OF_RANGE ≠ IPMI_CC_OK := by decide

lemma cc_invfield_ne_ok : IPMI_CC_INVALID_FIELD_REQUEST ≠ IPMI_CC_OK := by decide

lemma hiomap_reset_lenok (req : List Nat) (b : BusResult Unit) (ctx : Hiomap)
    (hwf : b.wf) : (hiomap_reset req b ctx).cc = IPMI_CC_OK →
    (hiomap_reset req b ctx).len = (hiomap_reset req b ctx).resp.length := by
  cases b with
  | ok u => intro _; rfl
  | err e => intro h; exact absurd h (hiomap_xlate_errno_ne_ok e hwf)

lemma hiomap_get_info_lenok (req : List Nat) (b : BusResult (Nat × Nat × Nat))
    (ctx : Hiomap) (hwf : b.wf) : (hiomap_get_info req b ctx).cc = IPMI_CC_OK →
    (hiomap_get_info req b ctx).len = (hiomap_get_info req b ctx).resp.length := by
  unfold hiomap_get_info
  split
  · intro h; exact absurd h cc_len_ne_ok
  · cases b with
    | ok v => obtain ⟨x, y, z⟩ := v; intro _; rfl
    | err e => intro h; exact absurd h (hiomap_xlate_errno_ne_ok e hwf)

lemma hiomap_get_flash_info_lenok (req : List Nat) (b : BusResult (Nat × Nat))
    (ctx : Hiomap) (hwf : b.wf) :
    (hiomap_get_flash_info req b ctx).cc = IPMI_CC_OK →
    (hiomap_get_flash_info req b ctx).len =
      (hiomap_get_flash_info req b ctx).resp.length := by
  cases b with
  | ok v => obtain ⟨x, y⟩ := v; intro _; rfl
  | err e => intro h; exact absurd h (hiomap_xlate_errno_ne_ok e hwf)

lemma hiomap_create_window_lenok (req : List Nat)
    (b : BusResult (Nat × Nat × Nat)) (ctx : Hiomap) (hwf : b.wf) :
    (hiomap_create_window req b ctx).cc = IPMI_CC_OK →
    (hiomap_create_window req b ctx).len =
      (hiomap_create_window req b ctx).resp.length := by
  unfold hiomap_create_window
  split
  · intro h; exact absurd h cc_len_ne_ok
  · cases b with
    | ok v => obtain ⟨x, y, z⟩ := v; intro _; rfl
    | err e => intro h; exact absurd h (hiomap_xlate_errno_ne_ok e hwf)

lemma hiomap_close_window_lenok (req : List Nat) (b : BusResult Unit)
    (ctx : Hiomap) (hwf : b.wf) :
    (hiomap_close_window req b ctx).cc = IPMI_CC_OK →
    (hiomap_close_window req b ctx).len =
      (hiomap_close_window req b ctx).resp.length := by
  unfold hiomap_close_window
  split
  · intro h; exact absurd h cc_len_ne_ok
  · cases b with
    | ok u => intro _; rfl
    | err e => intro h; exact absurd h (hiomap_xlate_errno_ne_ok e hwf)

lemma hiomap_mark_dirty_lenok (req : List Nat) (b : BusResult Unit)
    (ctx : Hiomap) (hwf : b.wf) :
    (hiomap_mark_dirty req b ctx).cc = IPMI_CC_OK →
    (hiomap_mark_dirty req b ctx).len =
      (hiomap_mark_dirty req b ctx).resp.length := by
  unfold hiomap_mark_dirty
  split
  · intro h; exact absurd h cc_len_ne_ok
  · cases b with
    | ok u => intro _; rfl
    | err e => intro h; exact absurd h (hiomap_xlate_errno_ne_ok e hwf)

lemma hiomap_flush_lenok (req : List Nat) (b : BusResult Unit) (ctx : Hiomap)
    (hwf : b.wf) : (hiomap_flush req b ctx).cc = IPMI_CC_OK →
    (hiomap_flush req b ctx).len = (hiomap_flush req b ctx).resp.length := by
  cases b with
  | ok u => intro _; rfl
  | err e => intro h; exact absurd h (hiomap_xlate_errno_ne_ok e hwf)

lemma hiomap_ack_lenok (req : List Nat) (b : BusResult Unit) (ctx : Hiomap)
    (hwf : b.wf) : (hiomap_ack req b ctx).cc = IPMI_CC_OK →
    (hiomap_ack req b ctx).len = (hiomap_ack req b ctx).resp.length := by
  unfold hiomap_ack
  split
  · intro h; exact absurd h cc_len_ne_ok
  · cases b with
    | ok u => intro _; rfl
    | err e => intro h; exact absurd h (hiomap_xlate_errno_ne_ok e hwf)

lemma hiomap_erase_lenok (req : List Nat) (b : BusResult Unit) (ctx : Hiomap)
    (hwf : b.wf) : (hiomap_erase req b ctx).cc = IPMI_CC_OK →
    (hiomap_erase req b ctx).len = (hiomap_erase req b ctx).resp.length := by
  unfold hiomap_erase
  split
  · intro h; exact absurd h cc_len_ne_ok
  · cases b with
    | ok u => intro _; rfl
    | err e => intro h; exact absurd h (hiomap_xlate_errno_ne_ok e hwf)

lemma hiomap_commands_lenok (cmd : Nat) (req : List Nat) (b : Backend)
    (ctx : Hiomap) (hwf : Backend.wf b) (hlo : 1 ≤ cmd) (hhi : cmd ≤ 10) :
    (hiomap_commands cmd req b ctx).cc = IPMI_CC_OK →
    (hiomap_commands cmd req b ctx).len =
      (hiomap_commands cmd req b ctx).resp.length := by
  obtain ⟨w1, w2, w3, w4, w5, w6, w7, w8, w9, w10⟩ := hwf
  rcases cmd with _ | _ | _ | _ | _ | _ | _ | _ | _ | _ | _ | n
  · omega
  · exact hiomap_reset_lenok _ _ _ w1
  · exact hiomap_get_info_lenok _ _ _ w2
  · exact hiomap_get_flash_info_lenok _ _ _ w3
  · exact hiomap_create_window_lenok _ _ _ w4
  · exact hiomap_close_window_lenok _ _ _ w5
  · exact hiomap_create_window_lenok _ _ _ w6
  · exact hiomap_mark_dirty_lenok _ _ _ w7
  · exact hiomap_flush_lenok _ _ _ w8
  · exact hiomap_ack_lenok _ _ _ w9
  · exact hiomap_erase_lenok _ _ _ w10
  · omega

/-- C6: for every successfully dispatched command, the first two response
bytes are the request's command id and the session's just-committed
sequence, followed by the handler's payload, and the response length is
the handler's payload length plus 2. -/
theorem C6_response_framing (req : List Nat) (b : Backend) (ctx : Hiomap)
    (hwf : Backend.wf b)
    (hok : (hiomap_dispatch req b ctx).cc = IPMI_CC_OK) :
    ∃ payload,
      (hiomap_dispatch req b ctx).resp =
        req.getD 0 0 :: (hiomap_dispatch req b ctx).ctx.seq :: payload ∧
      (hiomap_dispatch req b ctx).len = payload.length + 2 := by
  unfold hiomap_dispatch at hok ⊢
  by_cases h1 : req.length < 2
  · rw [if_pos h1] at hok; exact absurd hok cc_len_ne_ok
  · rw [if_neg h1] at hok ⊢
    by_cases h2 : req.getD 0 0 = 0 ∨ req.getD 0 0 > hiomap_commands_size - 1
    · rw [if_pos h2] at hok; exact absurd hok cc_parm_ne_ok
    · rw [if_neg h2] at hok ⊢
      by_cases h3 : ¬(req.getD 0 0 = HIOMAP_C_RESET ∨
          req.getD 0 0 = HIOMAP_C_GET_INFO ∨ req.getD 0 0 = HIOMAP_C_ACK) ∧
          ctx.seq = req.getD 1 0
      · rw [if_pos h3] at hok; exact absurd hok cc_invfield_ne_ok
      · rw [if_neg h3] at hok ⊢
        by_cases h4 : (hiomap_commands (req.getD 0 0) (req.drop 2) b
            { ctx with seq := req.getD 1 0 }).cc ≠ IPMI_CC_OK
        · rw [if_pos h4] at hok; exact absurd hok h4
        · rw [if_neg h4] at hok ⊢
          push_neg at h4
          refine ⟨(hiomap_commands (req.getD 0 0) (req.drop 2) b
            { ctx with seq := req.getD 1 0 }).resp, rfl, ?_⟩
          have hb : 1 ≤ req.getD 0 0 ∧ req.getD 0 0 ≤ 10 := by
            unfold hiomap_commands_size at h2; omega
          have hl := hiomap_commands_lenok (req.getD 0 0) (req.drop 2) b
            { ctx with seq := req.getD 1 0 } hwf hb.1 hb.2 h4
          exact congrArg (· + 2) hl

lemma hiomap_dispatch_handler_branch (req : List Nat) (b : Backend)
    (ctx : Hiomap) (hlen : 2 ≤ req.length)
    (hb : ¬(req.getD 0 0 = 0 ∨ req.getD 0 0 > hiomap_commands_size - 1))
    (hpass : req.getD 0 0 = 1 ∨ req.getD 0 0 = 2 ∨ req.getD 0 0 = 9 ∨
      req.getD 1 0 ≠ ctx.seq) :
    hiomap_dispatch req b ctx =
      (let r := hiomap_commands (req.getD 0 0) (req.drop 2) b
        { ctx with seq := req.getD 1 0 }
       if r.cc ≠ IPMI_CC_OK then ⟨r.cc, 0, [], r.ctx⟩
       else ⟨r.cc, r.len + 2, req.getD 0 0 :: r.ctx.seq :: r.resp, r.ctx⟩) := by
  unfold hiomap_dispatch
  rw [if_neg (by omega), if_neg hb, if_neg (by tauto)]

/-- C4: framing errors are detected locally, independently of the
backend, and force response length zero: an envelope shorter than 2 bytes
yields "request too short"; a command id of 0 or above 10 yields
"parameter out of range"; and the per-command payload-length checks
(payload shorter than 1 byte for Get-Info/Close-Window/Acknowledge,
shorter than 4 bytes for the window/dirty/erase commands) yield "request
too short" — the right-hand sides never mention the backend oracle, so no
backend call can have been issued. -/
theorem C4_framing_checked_before_backend (req : List Nat) (b : Backend)
    (ctx : Hiomap) :
    (req.length < 2 →
      hiomap_dispatch req b ctx =
        ⟨IPMI_CC_REQ_DATA_LEN_INVALID, 0, [], ctx⟩) ∧
    (2 ≤ req.length → (req.getD 0 0 = 0 ∨ 10 < req.getD 0 0) →
      hiomap_dispatch req b ctx = ⟨IPMI_CC_PARM_OUT_OF_RANGE, 0, [], ctx⟩) ∧
    (2 ≤ req.length →
      (req.getD 0 0 = 1 ∨ req.getD 0 0 = 2 ∨ req.getD 0 0 = 9 ∨
        req.getD 1 0 ≠ ctx.seq) →
      ((req.getD 0 0 = 2 ∨ req.getD 0 0 = 5 ∨ req.getD 0 0 = 9) ∧
          req.length < 3 ∨
       (req.getD 0 0 = 4 ∨ req.getD 0 0 = 6 ∨ req.getD 0 0 = 7 ∨
          req.getD 0 0 = 10) ∧ req.length < 6) →
      hiomap_dispatch req b ctx =
        ⟨IPMI_CC_REQ_DATA_LEN_INVALID, 0, [],
          { ctx with seq := req.getD 1 0 }⟩) := by
  refine ⟨?_, ?_, ?_⟩
  · intro h1
    unfold hiomap_dispatch
    rw [if_pos h1]
  · intro h1 h2
    unfold hiomap_dispatch
    rw [if_neg (by omega)]
    rw [if_pos (by unfold hiomap_commands_size; omega)]
  · intro h1 hpass hshort
    rw [hiomap_dispatch_handler_branch req b ctx h1
      (by unfold hiomap_commands_size; omega) hpass]
    rcases hshort with ⟨hc2 | hc5 | hc9, hl3⟩ | ⟨hc4 | hc6 | hc7 | hc10, hl6⟩
    · rw [hc2]
      have hr : hiomap_commands 2 (req.drop 2) b { ctx with seq := req.getD 1 0 } =
          ⟨IPMI_CC_REQ_DATA_LEN_INVALID, (req.drop 2).length, [],
            { ctx with seq := req.getD 1 0 }⟩ := by
        show hiomap_get_info (req.drop 2) b.getInfo _ = _
        unfold hiomap_get_info
        rw [if_pos (by rw [List.length_drop]; omega)]
      simp only [hr]
      rw [if_pos cc_len_ne_ok]
    · rw [hc5]
      have hr : hiomap_commands 5 (req.drop 2) b { ctx with seq := req.getD 1 0 } =
          ⟨IPMI_CC_REQ_DATA_LEN_INVALID, (req.drop 2).length, [],
            { ctx with seq := req.getD 1 0 }⟩ := by
        show hiomap_close_window (req.drop 2) b.closeWindow _ = _
        unfold hiomap_close_window
        rw [if_pos (by rw [List.length_drop]; omega)]
      simp only [hr]
      rw [if_pos cc_len_ne_ok]
    · rw [hc9]
      have hr : hiomap_commands 9 (req.drop 2) b { ctx with seq := req.getD 1 0 } =
          ⟨IPMI_CC_REQ_DATA_LEN_INVALID, (req.drop 2).length, [],
            { ctx with seq := req.getD 1 0 }⟩ := by
        show hiomap_ack (req.drop 2) b.ack _ = _
        unfold hiomap_ack
        rw [if_pos (by rw [List.length_drop]; omega)]
      simp only [hr]
      rw [if_pos cc_len_ne_ok]
    · rw [hc4]
      have hr : hiomap_commands 4 (req.drop 2) b { ctx with seq := req.getD 1 0 } =
          ⟨IPMI_CC_REQ_DATA_LEN_INVALID, (req.drop 2).length, [],
            { ctx with seq := req.getD 1 0 }⟩ := by
        show hiomap_create_window (req.drop 2) b.createReadWindow _ = _
        unfold hiomap_create_window
        rw [if_pos (by rw [List.length_drop]; omega)]
      simp only [hr]
      rw [if_pos cc_len_ne_ok]
    · rw [hc6]
      have hr : hiomap_commands 6 (req.drop 2) b { ctx with seq := req.getD 1 0 } =
          ⟨IPMI_CC_REQ_DATA_LEN_INVALID, (req.drop 2).length, [],
            { ctx with seq := req.getD 1 0 }⟩ := by
        show hiomap_create_window (req.drop 2) b.createWriteWindow _ = _
        unfold hiomap_create_window
        rw [if_pos (by rw [List.length_drop]; omega)]
      simp only [hr]
      rw [if_pos cc_len_ne_ok]
    · rw [hc7]
      have hr : hiomap_commands 7 (req.drop 2) b { ctx with seq := req.getD 1 0 } =
          ⟨IPMI_CC_REQ_DATA_LEN_INVALID, (req.drop 2).length, [],
            { ctx with seq := req.getD 1 0 }⟩ := by
        show hiomap_mark_dirty (req.drop 2) b.markDirty _ = _
        unfold hiomap_mark_dirty
        rw [if_pos (by rw [List.length_drop]; omega)]
      simp only [hr]
      rw [if_pos cc_len_ne_ok]
    · rw [hc10]
      have hr : hiomap_commands 10 (req.drop 2) b { ctx with seq := req.getD 1 0 } =
          ⟨IPMI_CC_REQ_DATA_LEN_INVALID, (req.drop 2).length, [],
            { ctx with seq := req.getD 1 0 }⟩ := by
        show hiomap_erase (req.drop 2) b.erase _ = _
        unfold hiomap_erase
        rw [if_pos (by rw [List.length_drop]; omega)]
      simp only [hr]
      rw [if_pos cc_len_ne_ok]

lemma count_standard (name : String) :
    event_lookup_count standard_event_lookup name = true ↔
    name = "DaemonReady" ∨ name = "FlashControlLost" ∨
    name = "WindowReset" ∨ name = "ProtocolReset" := by
  unfold event_lookup_count
  rw [List.find?_isSome]
  constructor
  · rintro ⟨p, hp, hpred⟩
    fin_cases hp <;> simp_all [standard_event_lookup]
  · rintro (rfl | rfl | rfl | rfl)
    · exact ⟨("DaemonReady", BMC_EVENT_DAEMON_READY), by simp [standard_event_lookup], by simp⟩
    · exact ⟨("FlashControlLost", BMC_EVENT_FLASH_CTRL_LOST), by simp [standard_event_lookup], by simp⟩
    · exact ⟨("WindowReset", BMC_EVENT_WINDOW_RESET), by simp [standard_event_lookup], by simp⟩
    · exact ⟨("ProtocolReset", BMC_EVENT_PROTOCOL_RESET), by simp [standard_event_lookup], by simp⟩

lemma standard_get_testBit (name : String) (i : Nat)
    (hc : event_lookup_count standard_event_lookup name = true)
    (hb : (event_lookup_get standard_event_lookup name).testBit i = true) :
    (name = "DaemonReady" ∧ i = 7) ∨ (name = "FlashControlLost" ∧ i = 6) ∨
    (name = "WindowReset" ∧ i = 1) ∨ (name = "ProtocolReset" ∧ i = 0) := by
  rcases (count_standard name).mp hc with rfl | rfl | rfl | rfl
  · left
    refine ⟨rfl, ?_⟩
    rw [show event_lookup_get standard_event_lookup "DaemonReady" = 2 ^ 7
      from by decide, Nat.testBit_two_pow] at hb
    simp at hb
    omega
  · right; left
    refine ⟨rfl, ?_⟩
    rw [show event_lookup_get standard_event_lookup "FlashControlLost" = 2 ^ 6
      from by decide, Nat.testBit_two_pow] at hb
    simp at hb
    omega
  · right; right; left
    refine ⟨rfl, ?_⟩
    rw [show event_lookup_get standard_event_lookup "WindowReset" = 2 ^ 1
      from by decide, Nat.testBit_two_pow] at hb
    simp at hb
    omega
  · right; right; right
    refine ⟨rfl, ?_⟩
    rw [show event_lookup_get standard_event_lookup "ProtocolReset" = 2 ^ 0
      from by decide, Nat.testBit_two_pow] at hb
    simp at hb
    omega

lemma standard_bit_pins_name (n1 n2 : String) (i : Nat)
    (h1 : event_lookup_count standard_event_lookup n1 = true)
    (h2 : event_lookup_count standard_event_lookup n2 = true)
    (hb1 : (event_lookup_get standard_event_lookup n1).testBit i = true)
    (hb2 : (event_lookup_get standard_event_lookup n2).testBit i = true) :
    n1 = n2 := by
  rcases standard_get_testBit n1 i h1 hb1 with ⟨rfl, hj⟩ | ⟨rfl, hj⟩ | ⟨rfl, hj⟩ | ⟨rfl, hj⟩ <;>
    rcases standard_get_testBit n2 i h2 hb2 with ⟨rfl, hi⟩ | ⟨rfl, hi⟩ | ⟨rfl, hi⟩ | ⟨rfl, hi⟩ <;>
    first | rfl | omega

lemma property_update_fold_untouched (l : List (String × Bool)) :
    ∀ (events i : Nat), i < 8 →
    (∀ p ∈ l, event_lookup_count standard_event_lookup p.1 = true →
      (event_lookup_get standard_event_lookup p.1).testBit i = false) →
    (property_update_fold standard_event_lookup events l).testBit i =
      events.testBit i := by
  induction l with
  | nil => intro events i _ _; rfl
  | cons hd tl ih =>
    intro events i hi8 hall
    obtain ⟨n', v'⟩ := hd
    unfold property_update_fold
    by_cases hc : event_lookup_count standard_event_lookup n' = true
    · rw [if_pos hc]
      have hbit := hall (n', v') (by simp) hc
      cases v' with
      | true =>
        have hrec := ih (events ||| event_lookup_get standard_event_lookup n')
          i hi8 (fun p hp => hall p (by simp [hp]))
        simpa [Nat.testBit_or, hbit] using hrec
      | false =>
        have hrec := ih
          (events &&& (255 ^^^ event_lookup_get standard_event_lookup n'))
          i hi8 (fun p hp => hall p (by simp [hp]))
        simpa [Nat.testBit_and, Nat.testBit_xor, testBit_255, hi8, hbit]
          using hrec
    · rw [if_neg hc]
      exact ih _ i hi8 (fun p hp => hall p (by simp [hp]))

lemma property_update_fold_bit (l : List (String × Bool)) :
    ∀ (events : Nat) (name : String) (v : Bool),
    (name, v) ∈ l → (l.map Prod.fst).Nodup →
    event_lookup_count standard_event_lookup name = true →
    ∀ i, (event_lookup_get standard_event_lookup name).testBit i = true →
    (property_update_fold standard_event_lookup events l).testBit i = v := by
  induction l with
  | nil => intro events name v hmem; simp at hmem
  | cons hd tl ih =>
    intro events name v hmem hnd hcount i hbit
    obtain ⟨n', v'⟩ := hd
    have hi8 : i < 8 := by
      rcases standard_get_testBit name i hcount hbit with ⟨_, rfl⟩ | ⟨_, rfl⟩ | ⟨_, rfl⟩ | ⟨_, rfl⟩ <;> omega
    rcases List.mem_cons.mp hmem with heq | htl
    · injection heq with he1 he2
      subst he1
      subst he2
      rw [List.map_cons] at hnd
      obtain ⟨hnotin, hndtl⟩ := List.nodup_cons.mp hnd
      have hall : ∀ p ∈ tl, event_lookup_count standard_event_lookup p.1 = true →
          (event_lookup_get standard_event_lookup p.1).testBit i = false := by
        intro p hp hcp
        by_contra hbp
        rw [Bool.not_eq_false] at hbp
        have hpn : p.1 = name := standard_bit_pins_name p.1 name i hcp hcount hbp hbit
        have hmm : name ∈ tl.map Prod.fst := by
          rw [← hpn]
          exact List.mem_map_of_mem Prod.fst hp
        exact hnotin hmm
      unfold property_update_fold
      rw [if_pos hcount]
      cases v with
      | true =>
        have hu := property_update_fold_untouched tl
          (events ||| event_lookup_get standard_event_lookup name) i hi8 hall
        simpa [Nat.testBit_or, hbit] using hu
      | false =>
        have hu := property_update_fold_untouched tl
          (events &&& (255 ^^^ event_lookup_get standard_event_lookup name)) i hi8 hall
        simpa [Nat.testBit_and, Nat.testBit_xor, testBit_255, hi8, hbit] using hu
    · have hndtl : (tl.map Prod.fst).Nodup := List.Nodup.of_cons (by simpa using hnd)
      unfold property_update_fold
      by_cases hc : event_lookup_count standard_event_lookup n' = true
      · rw [if_pos hc]
        cases v' with
        | true =>
          simpa using ih (events ||| event_lookup_get standard_event_lookup n')
            name v htl hndtl hcount i hbit
        | false =>
          simpa using ih
            (events &&& (255 ^^^ event_lookup_get standard_event_lookup n'))
            name v htl hndtl hcount i hbit
      · rw [if_neg hc]
        exact ih events name v htl hndtl hcount i hbit

lemma property_update_fold_skips (l : List (String × Bool)) :
    ∀ events : Nat,
    (∀ p ∈ l, event_lookup_count standard_event_lookup p.1 = false) →
    property_update_fold standard_event_lookup events l = events := by
  induction l with
  | nil => intro events _; rfl
  | cons hd tl ih =>
    intro events hall
    obtain ⟨n', v'⟩ := hd
    unfold property_update_fold
    rw [if_neg (by simp [hall (n', v') (List.mem_cons_self _ _)])]
    exact ih events (fun p hp => hall p (by simp [hp]))

/-- C8: for a property-style notification over the standard event table,
every delivered name present in the table drives its bit to the delivered
boolean (set when true, cleared when false); bits targeted by no
delivered in-table name — and hence deliveries of only unrecognized
names — leave the bitmask unchanged; exactly one upstream event push is
issued and it carries the resulting bitmask; and in particular
FlashControlLost=true sets bit 6 while FlashControlLost=false clears
it. -/
theorem C8_property_update_sets_and_clears (msgData : List (String × Bool))
    (ctx : Hiomap) (hl : ctx.event_lookup = standard_event_lookup)
    (hnd : (msgData.map Prod.fst).Nodup) :
    (∀ name v, (name, v) ∈ msgData →
      event_lookup_count standard_event_lookup name = true →
      ∀ i, (event_lookup_get standard_event_lookup name).testBit i = true →
      ((hiomap_handle_property_update msgData ctx).ctx.bmc_events).testBit i
        = v) ∧
    (∀ i, i < 8 →
      (∀ p ∈ msgData, event_lookup_count standard_event_lookup p.1 = true →
        (event_lookup_get standard_event_lookup p.1).testBit i = false) →
      ((hiomap_handle_property_update msgData ctx).ctx.bmc_events).testBit i
        = ctx.bmc_events.testBit i) ∧
    ((∀ p ∈ msgData, event_lookup_count standard_event_lookup p.1 = false) →
      (hiomap_handle_property_update msgData ctx).ctx.bmc_events =
        ctx.bmc_events) ∧
    ((hiomap_handle_property_update msgData ctx).pushes =
      [(IPMI_CMD_HIOMAP_EVENT,
        (hiomap_handle_property_update msgData ctx).ctx.bmc_events)]) ∧
    (msgData = [("FlashControlLost", true)] →
      ((hiomap_handle_property_update msgData ctx).ctx.bmc_events).testBit 6
        = true) ∧
    (msgData = [("FlashControlLost", false)] →
      ((hiomap_handle_property_update msgData ctx).ctx.bmc_events).testBit 6
        = false) := by
  refine ⟨?_, ?_, ?_, rfl, ?_, ?_⟩
  · intro name v hmem hcount i hbit
    unfold hiomap_handle_property_update
    simp only [hl]
    exact property_update_fold_bit msgData ctx.bmc_events name v hmem hnd
      hcount i hbit
  · intro i hi8 hall
    unfold hiomap_handle_property_update
    simp only [hl]
    exact property_update_fold_untouched msgData ctx.bmc_events i hi8 hall
  · intro hall
    unfold hiomap_handle_property_update
    simp only [hl]
    exact property_update_fold_skips msgData ctx.bmc_events hall
  · intro hm
    subst hm
    unfold hiomap_handle_property_update
    simp only [hl]
    exact property_update_fold_bit _ ctx.bmc_events "FlashControlLost" true
      (by simp) (by simp) (by decide) 6 (by decide)
  · intro hm
    subst hm
    unfold hiomap_handle_property_update
    simp only [hl]
    exact property_update_fold_bit _ ctx.bmc_events "FlashControlLost" false
      (by simp) (by simp) (by decide) 6 (by decide)

/-- Witness for C1: command 3 with the sequence byte equal to the stored
sequence 7 is rejected and the state is unchanged. -/
theorem C1_versioned_duplicate_seq_rejected_witness :
    hiomap_dispatch [3, 7] bW ctxW =
      ⟨IPMI_CC_INVALID_FIELD_REQUEST, 0, [], ctxW⟩ :=
  C1_versioned_duplicate_seq_rejected [3, 7] bW ctxW (by decide) (by decide)
    (by decide) (by decide) (by decide) (by decide) (by decide)

/-- Witness for C2: dispatching command 3 with fresh sequence 8 commits 8
as the stored sequence. -/
theorem C2_sequence_committed_before_handler_witness :
    (hiomap_dispatch [3, 8] bW ctxW).ctx.seq = List.getD [3, 8] 1 0 :=
  C2_sequence_committed_before_handler [3, 8] bW ctxW (by decide) (by decide)
    (by decide) (by decide)

/-- Witness for C3: acknowledging mask 0b10 clears bit 1 on success and a
failing backend (errno 16) leaves the state untouched. -/
theorem C3_ack_clears_mask_or_leaves_untouched_witness :
    ((hiomap_ack [2] (.ok ()) ctxW).ctx.bmc_events).testBit 1 =
      (ctxW.bmc_events.testBit 1 && !((List.getD [2] 0 0).testBit 1)) ∧
    (hiomap_ack [2] (.err 16) ctxW).ctx = ctxW :=
  ⟨(C3_ack_clears_mask_or_leaves_untouched [2] 16 ctxW (by decide)
      (by decide)).1.2 1,
   (C3_ack_clears_mask_or_leaves_untouched [2] 16 ctxW (by decide)
      (by decide)).2.1⟩

/-- Witness for C4: a 1-byte envelope, a command id 0 envelope, and a
Get-Info envelope with empty payload are each rejected locally. -/
theorem C4_framing_checked_before_backend_witness :
    hiomap_dispatch [1] bW ctxW =
      ⟨IPMI_CC_REQ_DATA_LEN_INVALID, 0, [], ctxW⟩ ∧
    hiomap_dispatch [0, 9] bW ctxW =
      ⟨IPMI_CC_PARM_OUT_OF_RANGE, 0, [], ctxW⟩ ∧
    hiomap_dispatch [2, 9] bW ctxW =
      ⟨IPMI_CC_REQ_DATA_LEN_INVALID, 0, [],
        { ctxW with seq := List.getD [2, 9] 1 0 }⟩ :=
  ⟨(C4_framing_checked_before_backend [1] bW ctxW).1 (by decide),
   (C4_framing_checked_before_backend [0, 9] bW ctxW).2.1 (by decide)
     (by decide),
   (C4_framing_checked_before_backend [2, 9] bW ctxW).2.2 (by decide)
     (by decide) (by decide)⟩

/-- Witness for C5: an Acknowledge envelope replaying the stored sequence
7 is not rejected with "invalid field in request". -/
theorem C5_unversioned_never_invalid_field_witness :
    (hiomap_dispatch [9, 7, 2] bW ctxW).cc ≠ IPMI_CC_INVALID_FIELD_REQUEST :=
  C5_unversioned_never_invalid_field [9, 7, 2] bW ctxW (by decide)

/-- Witness for C6: a successful Flush dispatch frames its response as
command id, committed sequence, and the (empty) handler payload. -/
theorem C6_response_framing_witness :
    ∃ payload,
      (hiomap_dispatch [8, 9] bW ctxW).resp =
        List.getD [8, 9] 0 0 ::
          (hiomap_dispatch [8, 9] bW ctxW).ctx.seq :: payload ∧
      (hiomap_dispatch [8, 9] bW ctxW).len = payload.length + 2 :=
  C6_response_framing [8, 9] bW ctxW
    ⟨trivial, trivial, trivial, trivial, trivial, trivial, trivial, trivial,
      trivial, trivial⟩ (by decide)

/-- Witness for C7: errno 5 matches no non-wildcard entry and maps to the
generic unspecified-error status, with the lookup finding an entry. -/
theorem C7_translator_total_first_match_witness :
    (∃ p, errno_cc_map.find?
        (fun entry => entry.1 == (5 : Int) || entry.1 == -1) = some p ∧
      hiomap_xlate_errno 5 = p.2) ∧
    hiomap_xlate_errno 5 = IPMI_CC_UNSPECIFIED_ERROR :=
  ⟨(C7_translator_total_first_match 5).1,
   (C7_translator_total_first_match 5).2 (by decide)⟩

/-- Witness for C8: delivering FlashControlLost=true sets bit 6. -/
theorem C8_property_update_sets_and_clears_witness :
    ((hiomap_handle_property_update [("FlashControlLost", true)]
        ctxW).ctx.bmc_events).testBit 6 = true :=
  (C8_property_update_sets_and_clears [("FlashControlLost", true)] ctxW rfl
    (by decide)).2.2.2.2.1 rfl

/-- Witness for C9: the bare WindowReset signal sets bit 1. -/
theorem C9_signal_only_sets_witness :
    ((hiomap_handle_signal_v2 "WindowReset" ctxW).ctx.bmc_events).testBit 1
      = true :=
  (C9_signal_only_sets "WindowReset" ctxW).2.2 rfl rfl

/-- Witness for C10: acknowledging mask 60 (bits 2..5) applies the raw
and-not and preserves the stored sequence. -/
theorem C10_ack_raw_mask_witness :
    (hiomap_ack [60] (.ok ()) ctxW).ctx.bmc_events =
      ctxW.bmc_events &&& (255 ^^^ List.getD [60] 0 0) ∧
    (hiomap_ack [60] (.ok ()) ctxW).ctx.seq = ctxW.seq :=
  ⟨(C10_ack_raw_mask [60] ctxW (by decide)).1,
   (C10_ack_raw_mask [60] ctxW (by decide)).2.2.1⟩
